import Mathlib

/-!
Verification of the AgentBridge documentation setup script (`docs_setup.py`).

The script is modelled shallowly:
* the filesystem is a `FS` record (set of existing directories, association
  list of files with their contents; the most recent binding shadows);
* `pathlib` path operations (`stem`, `parent.name`, `mkdir(parents=True)`)
  are translated to functions over `/`-separated path strings;
* the interactive `main` with its subprocesses is a function of an
  environment (config-file presence, subprocess exit codes, input lines)
  returning a trace: final filesystem, printed lines, subprocess calls
  and the exit outcome.
-/

namespace DocsSetup

/-! ## Path helpers (translating `pathlib` operations) -/

/-- Split a character list at `/` separators, accumulating the current
component in reverse. -/
def splitPathGo (acc : List Char) : List Char → List (List Char)
  | [] => [acc.reverse]
  | c :: cs =>
    if c = '/' then acc.reverse :: splitPathGo [] cs
    else splitPathGo (c :: acc) cs

/-- The `/`-separated components of a path string. -/
def pathComponents (s : String) : List String :=
  (splitPathGo [] s.toList).map (fun cs => String.mk cs)

/-- Join components back with `/` (inverse of `pathComponents` on
well-formed paths). -/
def joinPath : List String → String
  | [] => ""
  | [s] => s
  | s :: ss => s ++ "/" ++ joinPath ss

/-- All ancestor paths of `d`, shortest first, ending with `d` itself:
the directories `Path(d).mkdir(parents=True)` brings into existence. -/
def pathPrefixes (d : String) : List String :=
  let cs := pathComponents d
  (List.range cs.length).map (fun i => joinPath (cs.take (i + 1)))

/-- Python `Path(p).name`: the final path component. -/
def lastName (p : String) : String := (pathComponents p).getLastD ""

/-- Python `Path(p).parent.name`: the name of the parent directory. -/
def parentName (p : String) : String :=
  ((pathComponents p).dropLast).getLastD ""

/-- Python `Path(p).parent` as a path string. -/
def parentDir (p : String) : String :=
  joinPath ((pathComponents p).dropLast)

/-- Index of the last `.` in a character list, if any (Python `rfind`). -/
def lastDotIdx (cs : List Char) : Option Nat :=
  ((List.range cs.length).filter (fun i => cs.getD i ' ' = '.')).getLast?

/-- Python `Path(p).stem`: the final component without its suffix.  Mirrors
CPython: `i = name.rfind('.'); name[:i] if 0 < i < len(name)-1 else name`. -/
def stem (p : String) : String :=
  let cs := (lastName p).toList
  match lastDotIdx cs with
  | some i => if 0 < i ∧ i < cs.length - 1 then String.mk (cs.take i) else String.mk cs
  | none => String.mk cs

/-- Python `str.replace` of hyphen by space: character-wise hyphen-to-space. -/
def hyphenToSpace (s : String) : String :=
  String.mk (s.toList.map (fun c => if c = '-' then ' ' else c))

/-- Worker for `titleCase`; the flag records whether the previous
character was alphabetic. -/
def titleCaseGo : Bool → List Char → List Char
  | _, [] => []
  | prevAlpha, c :: cs =>
    (if c.isAlpha then (if prevAlpha then c.toLower else c.toUpper) else c)
      :: titleCaseGo c.isAlpha cs

/-- Python `str.title()` on ASCII text: uppercase each letter that follows
a non-letter, lowercase the other letters. -/
def titleCase (s : String) : String := String.mk (titleCaseGo false s.toList)

/-! ## Filesystem model -/

/-- Filesystem state: the set of directories that exist and an association
list from file path to content (the most recent binding shadows older
ones, so prepending a pair is `write_text`). -/
structure FS where
  dirs : List String
  files : List (String × String)
deriving DecidableEq

/-- First-match lookup in the file association list. -/
def lookupStr : List (String × String) → String → Option String
  | [], _ => none
  | (k, v) :: rest, p => if k = p then some v else lookupStr rest p

/-- Python `Path(p).exists()` for a file path. -/
def FS.fileExists (fs : FS) (p : String) : Bool :=
  (lookupStr fs.files p).isSome

/-- Whether a directory exists. -/
def FS.dirExists (fs : FS) (d : String) : Bool :=
  fs.dirs.contains d

/-- Python `Path(p).write_text(c)`. -/
def FS.writeText (fs : FS) (p c : String) : FS :=
  { fs with files := (p, c) :: fs.files }

/-- Record a single directory as existing (no-op when already present). -/
def FS.addDir (fs : FS) (d : String) : FS :=
  if fs.dirExists d then fs else { fs with dirs := d :: fs.dirs }

/-- Python `Path(d).mkdir(parents=True, exist_ok=True)`: every ancestor of `d`
and `d` itself come into existence. -/
def FS.mkdirParents (fs : FS) (d : String) : FS :=
  (pathPrefixes d).foldl FS.addDir fs

/-! ## The script: fixed data -/

/-- The list `DOCS_DIRS`: directories to create. -/
def DOCS_DIRS : List String := [
  "docs/assets",
  "docs/getting-started",
  "docs/core",
  "docs/web/react",
  "docs/web/angular",
  "docs/mobile/react-native",
  "docs/mobile/flutter",
  "docs/advanced",
  "docs/development"
]

/-- The list `expected_files`: all expected markdown files based on `mkdocs.yml`. -/
def expected_files : List String := [
  "docs/index.md",
  "docs/getting-started/installation.md",
  "docs/getting-started/quick-start.md",
  "docs/core/overview.md",
  "docs/core/api-reference.md",
  "docs/core/function-registry.md",
  "docs/core/type-system.md",
  "docs/web/react/overview.md",
  "docs/web/react/components.md",
  "docs/web/react/hooks.md",
  "docs/web/angular/overview.md",
  "docs/web/angular/components.md",
  "docs/web/angular/services.md",
  "docs/mobile/react-native/overview.md",
  "docs/mobile/react-native/components.md",
  "docs/mobile/flutter/overview.md",
  "docs/mobile/flutter/components.md",
  "docs/advanced/authentication.md",
  "docs/advanced/error-handling.md",
  "docs/advanced/custom-adapters.md",
  "docs/development/contributing.md",
  "docs/development/architecture.md"
]

/-- Path of the architecture-diagram image the script looks for. -/
def archDiagramPath : String := "docs/assets/agentbridge-architecture.png"

/-- The console note printed when the architecture diagram is absent. -/
def archNote : String :=
  "Note: Please create an architecture diagram at " ++ archDiagramPath

/-! ## The script: scaffolding and placeholders -/

/-- One iteration of the loop in `create_directories`: `mkdir` then print. -/
def cdStep (acc : FS × List String) (d : String) : FS × List String :=
  (acc.1.mkdirParents d, acc.2 ++ ["Created directory: " ++ d])

/-- Function `create_directories()`: create all documentation directories,
returning the new filesystem and the printed lines. -/
def create_directories (fs : FS) : FS × List String :=
  DOCS_DIRS.foldl cdStep (fs, [])

/-- Placeholder content for a missing page, from the f-string template. -/
def placeholderContent (p : String) : String :=
  let title := titleCase (hyphenToSpace (stem p))
  let parent := titleCase (hyphenToSpace (parentName p))
  "# " ++ title ++
    "\n\nThis page is under construction. It will contain documentation about "
    ++ title ++ " in the " ++ parent ++
    " section.\n\n## Coming Soon\n\nCheck back soon for detailed documentation on this topic.\n"

/-- One iteration of the loop in `create_placeholder_files`: write the
placeholder and print, unless the file already exists. -/
def phStep (acc : FS × List String) (p : String) : FS × List String :=
  if acc.1.fileExists p then acc
  else (acc.1.writeText p (placeholderContent p),
        acc.2 ++ ["Created placeholder file: " ++ p])

/-- Function `create_placeholder_files()`: note a missing architecture diagram,
then create placeholders for the missing expected files. -/
def create_placeholder_files (fs : FS) : FS × List String :=
  let note := if fs.fileExists archDiagramPath then [] else [archNote]
  expected_files.foldl phStep (fs, note)

/-! ## The script: subprocesses and the interactive menu

Here `main` is modelled as a function of an environment describing everything
outside the script: whether `mkdocs.yml` exists, the starting
filesystem, the exit code of the `pip install` subprocess, the exit
codes of successive `mkdocs build` calls, the outcomes of successive
`mkdocs serve` calls, and the lines the user types at the menu. -/

/-- Outcome of one `mkdocs serve` subprocess: it either exits with a code
or is stopped by an interrupt signal (`KeyboardInterrupt`). -/
inductive ServeOut where
  | exited (code : Nat)
  | interrupted
deriving DecidableEq

/-- Subprocess invocations the script can make. -/
inductive Call where
  | install
  | build
  | serve
deriving DecidableEq

/-- How a run of the script ends: `exited code` for `sys.exit` / normal
return, `eof` when `input()` hits end of input. -/
inductive Outcome where
  | exited (code : Nat)
  | eof
deriving DecidableEq

/-- Observable trace of a run: final filesystem, printed lines,
subprocess calls made, and how the run ended. -/
structure Result where
  fs : FS
  out : List String
  calls : List Call
  outcome : Outcome
deriving DecidableEq

/-- The menu text printed at the top of each loop iteration, together
with the `input()` prompt. -/
def menuText : List String := [
  "\nWhat would you like to do next?",
  "1. Build documentation",
  "2. Serve documentation locally",
  "3. Exit",
  "Enter your choice (1-3): "
]

/-- Printed when `pip install` succeeds. -/
def installOkMsg : String := "Successfully installed MkDocs and required plugins."

/-- Printed when `pip install` fails; the exception text is modelled by
the exit code. -/
def installErrMsg (e : Nat) : String :=
  "Error installing dependencies: " ++ toString e

/-- Printed when `mkdocs build` succeeds. -/
def buildOkMsg : String :=
  "Documentation built successfully. You can find the output in the \x27site\x27 directory."

/-- Printed when `mkdocs build` fails; the exception text is modelled by
the exit code. -/
def buildErrMsg (e : Nat) : String :=
  "Error building documentation: " ++ toString e

/-- Printed before `mkdocs serve` runs. -/
def serveMsg1 : String := "Serving documentation at http://127.0.0.1:8000/"

/-- Printed before `mkdocs serve` runs. -/
def serveMsg2 : String := "Press Ctrl+C to stop the server."

/-- Printed when `mkdocs serve` fails. -/
def serveErrMsg (e : Nat) : String :=
  "Error serving documentation: " ++ toString e

/-- Printed when the serve subprocess is interrupted. -/
def serveStoppedMsg : String := "\nServer stopped."

/-- The `while True` menu loop of `main`, one recursive step per line of
input.  `builds` and `serves` supply the outcomes of successive build and
serve subprocesses (a success by default when exhausted). -/
def menuLoop : List String → List Nat → List ServeOut → FS → List String → List Call → Result
  | [], _, _, fs, out, calls => ⟨fs, out, calls, Outcome.eof⟩
  | c :: rest, builds, serves, fs, out, calls =>
    let out2 := out ++ menuText
    if c = "1" then
      match builds.headD 0 with
      | 0 => menuLoop rest builds.tail serves fs (out2 ++ [buildOkMsg]) (calls ++ [Call.build])
      | e + 1 =>
        ⟨fs, out2 ++ [buildErrMsg (e + 1)], calls ++ [Call.build], Outcome.exited 1⟩
    else if c = "2" then
      let out3 := out2 ++ [serveMsg1, serveMsg2]
      match serves.headD (ServeOut.exited 0) with
      | ServeOut.interrupted =>
        menuLoop rest builds serves.tail fs (out3 ++ [serveStoppedMsg]) (calls ++ [Call.serve])
      | ServeOut.exited 0 =>
        menuLoop rest builds serves.tail fs out3 (calls ++ [Call.serve])
      | ServeOut.exited (e + 1) =>
        ⟨fs, out3 ++ [serveErrMsg (e + 1)], calls ++ [Call.serve], Outcome.exited 1⟩
    else if c = "3" then
      ⟨fs, out2 ++ ["Exiting..."], calls, Outcome.exited 0⟩
    else
      menuLoop rest builds serves fs (out2 ++ ["Invalid choice. Please try again."]) calls

/-- The environment a run of the script executes in. -/
structure Env where
  mkdocsYmlExists : Bool
  fs0 : FS
  installExit : Nat
  buildExits : List Nat
  serveOuts : List ServeOut
  inputs : List String
deriving DecidableEq

/-- Printed when the config file is missing. -/
def missingCfgMsg : String := "Error: mkdocs.yml not found. Please create it first."

/-- Function `main()`: config check, scaffold, install, placeholders, menu loop. -/
def mainRun (env : Env) : Result :=
  let out0 := ["Setting up AgentBridge documentation..."]
  if env.mkdocsYmlExists then
    let r1 := create_directories env.fs0
    if env.installExit = 0 then
      let r2 := create_placeholder_files r1.1
      menuLoop env.inputs env.buildExits env.serveOuts r2.1
        (out0 ++ r1.2 ++ [installOkMsg] ++ r2.2) [Call.install]
    else
      ⟨r1.1, out0 ++ r1.2 ++ [installErrMsg env.installExit], [Call.install],
        Outcome.exited 1⟩
  else
    ⟨env.fs0, out0 ++ [missingCfgMsg], [], Outcome.exited 1⟩

/-! ## Auxiliary notions used to state the claims -/

/-- Whether the first list is an initial segment of the second. -/
def startsWithCh : List Char → List Char → Bool
  | [], _ => true
  | _ :: _, [] => false
  | a :: as, b :: bs => if a = b then startsWithCh as bs else false

/-- Whether `pat` occurs contiguously inside the second list. -/
def containsSeg (pat : List Char) : List Char → Bool
  | [] => startsWithCh pat []
  | c :: cs => startsWithCh pat (c :: cs) || containsSeg pat cs

/-- Whether `pat` occurs as a substring of `s`. -/
def strContains (s pat : String) : Bool := containsSeg pat.toList s.toList

/-- The text of `s` up to (excluding) the first newline. -/
def firstLine (s : String) : String :=
  String.mk (s.toList.takeWhile (fun c => ¬ c = '\n'))

/-- The title the spec derives for an expected file: the stem with hyphens
replaced by spaces, title-cased (stated in the spec's own words, to be
compared against what the code writes). -/
def specTitle (p : String) : String := titleCase (hyphenToSpace (stem p))

/-- The section label the spec derives for an expected file: the parent
directory name under the same transform. -/
def specSection (p : String) : String := titleCase (hyphenToSpace (parentName p))

/-- The empty filesystem, used to instantiate witnesses. -/
def emptyFS : FS := ⟨[], []⟩

/-- A filesystem in which every directory the scaffolder would create is
already present (used to witness the no-op part of idempotence). -/
def fullDirsFS : FS := ⟨(DOCS_DIRS.map pathPrefixes).flatten, []⟩

/-! ## General lemmas about folds -/

/-- A property preserved by every step of a fold holds of the result. -/
theorem foldl_pres {β α : Type} (f : β → α → β) (P : β → Prop) :
    ∀ (l : List α) (b : β), (∀ b' a, a ∈ l → P b' → P (f b' a)) → P b → P (l.foldl f b) := by
  intro l
  induction l with
  | nil => intro b _ hb; exact hb
  | cons a l ih =>
    intro b hf hb
    exact ih (f b a) (fun b' x hx => hf b' x (List.mem_cons_of_mem a hx))
      (hf b a (List.mem_cons_self a l) hb)

/-- A property established when the fold reaches `x ∈ l` and preserved by
every step holds of the result. -/
theorem foldl_attain {β α : Type} (f : β → α → β) (P : β → Prop) (x : α) :
    ∀ (l : List α) (b : β), x ∈ l → (∀ b' a, P b' → P (f b' a)) →
      (∀ b', P (f b' x)) → P (l.foldl f b) := by
  intro l
  induction l with
  | nil => intro b hx; cases hx
  | cons a l ih =>
    intro b hx hpres hstep
    rcases List.mem_cons.mp hx with h | h
    · subst h
      exact foldl_pres f P l (f b x) (fun b' a _ => hpres b' a) (hstep b)
    · exact ih (f b a) h hpres hstep

/-! ## Lemmas about the filesystem model -/

theorem dirExists_iff (fs : FS) (d : String) : fs.dirExists d = true ↔ d ∈ fs.dirs :=
  List.elem_iff

theorem addDir_files (fs : FS) (d : String) : (fs.addDir d).files = fs.files := by
  unfold FS.addDir; split <;> rfl

theorem addDir_mem (fs : FS) (d q : String) (h : q ∈ fs.dirs) : q ∈ (fs.addDir d).dirs := by
  unfold FS.addDir; split
  · exact h
  · exact List.mem_cons_of_mem d h

theorem addDir_self_mem (fs : FS) (d : String) : d ∈ (fs.addDir d).dirs := by
  unfold FS.addDir; split
  · next hcond => exact (dirExists_iff fs d).mp hcond
  · exact List.mem_cons_self d _

theorem addDir_noop (fs : FS) (d : String) (h : d ∈ fs.dirs) : fs.addDir d = fs := by
  unfold FS.addDir
  rw [if_pos ((dirExists_iff fs d).mpr h)]

theorem mkdirParents_files (fs : FS) (d : String) :
    (fs.mkdirParents d).files = fs.files :=
  foldl_pres FS.addDir (fun b => b.files = fs.files) (pathPrefixes d) fs
    (fun b a _ hb => (addDir_files b a).trans hb) rfl

theorem mkdirParents_mem (fs : FS) (d q : String) (h : q ∈ fs.dirs) :
    q ∈ (fs.mkdirParents d).dirs :=
  foldl_pres FS.addDir (fun b => q ∈ b.dirs) (pathPrefixes d) fs
    (fun b a _ hb => addDir_mem b a q hb) h

theorem mkdirParents_attain (fs : FS) (d q : String) (h : q ∈ pathPrefixes d) :
    q ∈ (fs.mkdirParents d).dirs :=
  foldl_attain FS.addDir (fun b => q ∈ b.dirs) q (pathPrefixes d) fs h
    (fun b a hb => addDir_mem b a q hb) (fun b => addDir_self_mem b q)

theorem foldl_addDir_noop (fs : FS) :
    ∀ (l : List String), (∀ q ∈ l, q ∈ fs.dirs) → l.foldl FS.addDir fs = fs := by
  intro l
  induction l with
  | nil => intro _; rfl
  | cons a l ih =>
    intro h
    rw [List.foldl_cons, addDir_noop fs a (h a (List.mem_cons_self a l))]
    exact ih (fun q hq => h q (List.mem_cons_of_mem a hq))

theorem mkdirParents_noop (fs : FS) (d : String)
    (h : ∀ q ∈ pathPrefixes d, q ∈ fs.dirs) : fs.mkdirParents d = fs :=
  foldl_addDir_noop fs (pathPrefixes d) h

/-! ## Lemmas about `create_directories` -/

theorem create_directories_files (fs : FS) :
    (create_directories fs).1.files = fs.files :=
  foldl_pres cdStep (fun acc => acc.1.files = fs.files) DOCS_DIRS (fs, [])
    (fun b a _ hb => (mkdirParents_files b.1 a).trans hb) rfl

theorem create_directories_mem_ancestor (fs : FS) (d q : String)
    (hd : d ∈ DOCS_DIRS) (hq : q ∈ pathPrefixes d) :
    q ∈ (create_directories fs).1.dirs :=
  foldl_attain cdStep (fun acc => q ∈ acc.1.dirs) d DOCS_DIRS (fs, []) hd
    (fun b a hb => mkdirParents_mem b.1 a q hb)
    (fun b => mkdirParents_attain b.1 d q hq)

theorem create_directories_out (fs : FS) (d : String) (hd : d ∈ DOCS_DIRS) :
    ("Created directory: " ++ d) ∈ (create_directories fs).2 :=
  foldl_attain cdStep (fun acc => ("Created directory: " ++ d) ∈ acc.2) d DOCS_DIRS
    (fs, []) hd
    (fun _ _ hb => List.mem_append_left _ hb)
    (fun _ => List.mem_append_right _ (List.mem_singleton.mpr rfl))

theorem create_directories_noop (fs : FS)
    (h : ∀ d ∈ DOCS_DIRS, ∀ q ∈ pathPrefixes d, q ∈ fs.dirs) :
    (create_directories fs).1 = fs :=
  foldl_pres cdStep (fun acc => acc.1 = fs) DOCS_DIRS (fs, [])
    (fun b a ha hb => by
      show b.1.mkdirParents a = fs
      rw [hb]
      exact mkdirParents_noop fs a (h a ha)) rfl

theorem create_directories_idem (fs : FS) :
    (create_directories (create_directories fs).1).1 = (create_directories fs).1 :=
  create_directories_noop _ (fun d hd q hq => create_directories_mem_ancestor fs d q hd hq)

/-! ## Lemmas about `create_placeholder_files` -/

theorem writeText_lookup_self (fs : FS) (p c : String) :
    lookupStr (fs.writeText p c).files p = some c := by
  simp [FS.writeText, lookupStr]

theorem writeText_lookup_ne (fs : FS) (p q c : String) (h : q ≠ p) :
    lookupStr (fs.writeText q c).files p = lookupStr fs.files p := by
  simp [FS.writeText, lookupStr, h]

theorem phStep_lookup_pres (b : FS × List String) (a p c : String)
    (hb : lookupStr b.1.files p = some c) :
    lookupStr (phStep b a).1.files p = some c := by
  unfold phStep
  split
  · exact hb
  · next hex =>
    have hne : a ≠ p := fun h => hex (by
      subst h
      unfold FS.fileExists
      rw [hb]
      rfl)
    show lookupStr (b.1.writeText a (placeholderContent a)).files p = some c
    rw [writeText_lookup_ne _ _ _ _ hne]
    exact hb

theorem phStep_exists_pres (b : FS × List String) (a p : String)
    (hb : b.1.fileExists p = true) :
    (phStep b a).1.fileExists p = true := by
  unfold phStep
  split
  · exact hb
  · by_cases hap : a = p
    · subst hap
      show (b.1.writeText a (placeholderContent a)).fileExists a = true
      unfold FS.fileExists
      rw [writeText_lookup_self]
      rfl
    · show (b.1.writeText a (placeholderContent a)).fileExists p = true
      unfold FS.fileExists at hb ⊢
      rw [writeText_lookup_ne _ _ _ _ hap]
      exact hb

theorem phStep_exists_attain (b : FS × List String) (p : String) :
    (phStep b p).1.fileExists p = true := by
  unfold phStep
  split
  · next h => exact h
  · show (b.1.writeText p (placeholderContent p)).fileExists p = true
    unfold FS.fileExists
    rw [writeText_lookup_self]
    rfl

theorem phStep_missing_pres (b : FS × List String) (a p : String)
    (hne : a ≠ p) (hb : b.1.fileExists p = false) :
    (phStep b a).1.fileExists p = false := by
  unfold phStep
  split
  · exact hb
  · show (b.1.writeText a (placeholderContent a)).fileExists p = false
    unfold FS.fileExists at hb ⊢
    rw [writeText_lookup_ne _ _ _ _ hne]
    exact hb

theorem phStep_content_inv (b : FS × List String) (a p : String)
    (hb : lookupStr b.1.files p = some (placeholderContent p) ∨
          b.1.fileExists p = false) :
    lookupStr (phStep b a).1.files p = some (placeholderContent p) ∨
      (phStep b a).1.fileExists p = false := by
  rcases hb with hb | hb
  · exact Or.inl (phStep_lookup_pres b a p _ hb)
  · by_cases hap : a = p
    · subst hap
      unfold phStep
      split
      · next h => rw [h] at hb; cases hb
      · exact Or.inl (by
          show lookupStr (b.1.writeText a (placeholderContent a)).files a = _
          rw [writeText_lookup_self])
    · exact Or.inr (phStep_missing_pres b a p hap hb)

theorem phStep_dirs (b : FS × List String) (a : String) :
    (phStep b a).1.dirs = b.1.dirs := by
  unfold phStep
  split <;> rfl

theorem phStep_out_pres (b : FS × List String) (a x : String) (hb : x ∈ b.2) :
    x ∈ (phStep b a).2 := by
  unfold phStep
  split
  · exact hb
  · exact List.mem_append_left _ hb

/-- Unfolding equation for `create_placeholder_files`, stated at the level
of the whole pair so that later rewrites stay syntactic. -/
theorem create_placeholder_files_eq (fs : FS) :
    create_placeholder_files fs =
      expected_files.foldl phStep
        (fs, if fs.fileExists archDiagramPath then ([] : List String) else [archNote]) := rfl

theorem ph_fold_lookup_pres (p c : String) :
    ∀ b : FS × List String, lookupStr b.1.files p = some c →
      lookupStr (expected_files.foldl phStep b).1.files p = some c :=
  fun b hb => foldl_pres phStep (fun b => lookupStr b.1.files p = some c)
    expected_files b (fun b' a _ hb' => phStep_lookup_pres b' a p c hb') hb

theorem ph_fold_exists (p : String) (hp : p ∈ expected_files) :
    ∀ b : FS × List String,
      (expected_files.foldl phStep b).1.fileExists p = true :=
  fun b => foldl_attain phStep (fun b => b.1.fileExists p = true) p expected_files b hp
    (fun b' a hb' => phStep_exists_pres b' a p hb')
    (fun b' => phStep_exists_attain b' p)

theorem ph_fold_content_inv (p : String) :
    ∀ b : FS × List String,
      (lookupStr b.1.files p = some (placeholderContent p) ∨ b.1.fileExists p = false) →
      (lookupStr (expected_files.foldl phStep b).1.files p = some (placeholderContent p) ∨
        (expected_files.foldl phStep b).1.fileExists p = false) :=
  fun b hb => foldl_pres phStep
    (fun b => lookupStr b.1.files p = some (placeholderContent p) ∨
      b.1.fileExists p = false)
    expected_files b (fun b' a _ hb' => phStep_content_inv b' a p hb') hb

theorem ph_fold_missing (p : String) (hp : ∀ q ∈ expected_files, q ≠ p) :
    ∀ b : FS × List String, b.1.fileExists p = false →
      (expected_files.foldl phStep b).1.fileExists p = false :=
  fun b hb => foldl_pres phStep (fun b => b.1.fileExists p = false)
    expected_files b (fun b' a ha hb' => phStep_missing_pres b' a p (hp a ha) hb') hb

theorem ph_fold_out_pres (x : String) :
    ∀ b : FS × List String, x ∈ b.2 → x ∈ (expected_files.foldl phStep b).2 :=
  fun b hb => foldl_pres phStep (fun b => x ∈ b.2)
    expected_files b (fun b' a _ hb' => phStep_out_pres b' a x hb') hb

theorem ph_fold_dirs (fs : FS) :
    ∀ b : FS × List String, b.1.dirs = fs.dirs →
      (expected_files.foldl phStep b).1.dirs = fs.dirs :=
  fun b hb => foldl_pres phStep (fun b => b.1.dirs = fs.dirs)
    expected_files b (fun b' a _ hb' => (phStep_dirs b' a).trans hb') hb

theorem create_placeholder_files_lookup_pres (fs : FS) (p c : String)
    (h : lookupStr fs.files p = some c) :
    lookupStr (create_placeholder_files fs).1.files p = some c := by
  rw [create_placeholder_files_eq]
  exact ph_fold_lookup_pres p c
    (fs, if fs.fileExists archDiagramPath then ([] : List String) else [archNote]) h

theorem create_placeholder_files_exists (fs : FS) (p : String)
    (hp : p ∈ expected_files) :
    (create_placeholder_files fs).1.fileExists p = true := by
  rw [create_placeholder_files_eq]
  exact ph_fold_exists p hp
    (fs, if fs.fileExists archDiagramPath then ([] : List String) else [archNote])

theorem create_placeholder_files_content (fs : FS) (p : String)
    (hp : p ∈ expected_files) (hmiss : fs.fileExists p = false) :
    lookupStr (create_placeholder_files fs).1.files p = some (placeholderContent p) := by
  have hex := create_placeholder_files_exists fs p hp
  rw [create_placeholder_files_eq] at hex ⊢
  rcases ph_fold_content_inv p
      (fs, if fs.fileExists archDiagramPath then ([] : List String) else [archNote])
      (Or.inr hmiss) with h | h
  · exact h
  · rw [hex] at h
    cases h

theorem create_placeholder_files_not_created (fs : FS) (p : String)
    (hp : ∀ q ∈ expected_files, q ≠ p) (hmiss : fs.fileExists p = false) :
    (create_placeholder_files fs).1.fileExists p = false := by
  rw [create_placeholder_files_eq]
  exact ph_fold_missing p hp
    (fs, if fs.fileExists archDiagramPath then ([] : List String) else [archNote]) hmiss

theorem create_placeholder_files_note (fs : FS)
    (h : fs.fileExists archDiagramPath = false) :
    archNote ∈ (create_placeholder_files fs).2 := by
  rw [create_placeholder_files_eq, h]
  simp only [Bool.false_eq_true, if_false]
  exact ph_fold_out_pres archNote (fs, [archNote]) (List.mem_singleton.mpr rfl)

theorem create_placeholder_files_dirs (fs : FS) :
    (create_placeholder_files fs).1.dirs = fs.dirs := by
  rw [create_placeholder_files_eq]
  exact ph_fold_dirs fs
    (fs, if fs.fileExists archDiagramPath then ([] : List String) else [archNote]) rfl

/-! ## Concrete facts about the fixed path lists -/

theorem docs_dirs_self_ancestor : ∀ d ∈ DOCS_DIRS, d ∈ pathPrefixes d := by decide

theorem expected_parent_covered :
    ∀ p ∈ expected_files, ∃ d ∈ DOCS_DIRS, parentDir p ∈ pathPrefixes d := by decide

theorem expected_ne_arch : ∀ q ∈ expected_files, q ≠ archDiagramPath := by decide

theorem content_facts : ∀ p ∈ expected_files,
    firstLine (placeholderContent p) = "# " ++ specTitle p ∧
    strContains (placeholderContent p)
      ("documentation about " ++ specTitle p ++ " in the " ++ specSection p
        ++ " section") = true ∧
    strContains (placeholderContent p) "Coming Soon" = true := by decide

/-! ## Lemmas about the menu loop and `main` -/

theorem menuLoop_exit (rest : List String) (builds : List Nat) (serves : List ServeOut)
    (fs : FS) (out : List String) (calls : List Call) :
    menuLoop ("3" :: rest) builds serves fs out calls =
      ⟨fs, (out ++ menuText) ++ ["Exiting..."], calls, Outcome.exited 0⟩ := rfl

theorem menuLoop_build_fail (rest : List String) (bs : List Nat) (ss : List ServeOut)
    (fs : FS) (out : List String) (calls : List Call) (e : Nat) (he : e ≠ 0) :
    menuLoop ("1" :: rest) (e :: bs) ss fs out calls =
      ⟨fs, (out ++ menuText) ++ [buildErrMsg e], calls ++ [Call.build],
        Outcome.exited 1⟩ := by
  obtain ⟨k, rfl⟩ := Nat.exists_eq_succ_of_ne_zero he
  rfl

theorem menuLoop_serve_fail (rest : List String) (bs : List Nat) (ss : List ServeOut)
    (fs : FS) (out : List String) (calls : List Call) (e : Nat) :
    menuLoop ("2" :: rest) bs (ServeOut.exited (e + 1) :: ss) fs out calls =
      ⟨fs, ((out ++ menuText) ++ [serveMsg1, serveMsg2]) ++ [serveErrMsg (e + 1)],
        calls ++ [Call.serve], Outcome.exited 1⟩ := rfl

theorem mainRun_install_fail (env : Env) (hcfg : env.mkdocsYmlExists = true)
    (hin : env.installExit ≠ 0) :
    mainRun env = ⟨(create_directories env.fs0).1,
      (["Setting up AgentBridge documentation..."] ++ (create_directories env.fs0).2)
        ++ [installErrMsg env.installExit],
      [Call.install], Outcome.exited 1⟩ := by
  unfold mainRun
  rw [hcfg]
  simp only [if_neg hin]
  rfl

theorem mainRun_menu (env : Env) (hcfg : env.mkdocsYmlExists = true)
    (hin : env.installExit = 0) :
    mainRun env = menuLoop env.inputs env.buildExits env.serveOuts
      (create_placeholder_files (create_directories env.fs0).1).1
      (["Setting up AgentBridge documentation..."] ++ (create_directories env.fs0).2
        ++ [installOkMsg] ++ (create_placeholder_files (create_directories env.fs0).1).2)
      [Call.install] := by
  unfold mainRun
  rw [hcfg, hin]
  rfl

/-! ## The claims -/

set_option maxRecDepth 8000

/-- C1: after `create_directories` and `create_placeholder_files` have both
run, every directory path in `DOCS_DIRS` and every file path in
`expected_files` exists on disk, and any file that existed before the run
has its content unchanged byte-for-byte (no existing file is overwritten). -/
theorem C1_setup_invariant (fs : FS) :
    (∀ d ∈ DOCS_DIRS,
      (create_placeholder_files (create_directories fs).1).1.dirExists d = true) ∧
    (∀ p ∈ expected_files,
      (create_placeholder_files (create_directories fs).1).1.fileExists p = true) ∧
    (∀ p c, lookupStr fs.files p = some c →
      lookupStr (create_placeholder_files (create_directories fs).1).1.files p = some c) := by
  refine ⟨?_, ?_, ?_⟩
  · intro d hd
    refine (dirExists_iff _ d).mpr ?_
    rw [create_placeholder_files_dirs]
    exact create_directories_mem_ancestor fs d d hd (docs_dirs_self_ancestor d hd)
  · intro p hp
    exact create_placeholder_files_exists _ p hp
  · intro p c h
    refine create_placeholder_files_lookup_pres _ p c ?_
    rw [create_directories_files]
    exact h

/-- Witness for C1 at a concrete filesystem holding a pre-existing
`docs/index.md` with content `KEEP`. -/
theorem C1_setup_invariant_witness :
    lookupStr (create_placeholder_files
        (create_directories (⟨[], [("docs/index.md", "KEEP")]⟩ : FS)).1).1.files
      "docs/index.md" = some "KEEP" ∧
    (create_placeholder_files
        (create_directories (⟨[], [("docs/index.md", "KEEP")]⟩ : FS)).1).1.dirExists
      "docs/assets" = true :=
  ⟨(C1_setup_invariant ⟨[], [("docs/index.md", "KEEP")]⟩).2.2 "docs/index.md" "KEEP" rfl,
   (C1_setup_invariant ⟨[], [("docs/index.md", "KEEP")]⟩).1 "docs/assets" (by decide)⟩

/-- C2: for every path in `expected_files` that does not exist,
`create_placeholder_files` writes a document whose heading is the stem
with hyphens replaced by spaces and title-cased, whose body contains a
one-line description referencing that title and the section label derived
from the parent directory name by the same transform, and which contains
a "Coming Soon" marker. -/
theorem C2_placeholder_template (fs : FS) (p : String)
    (hp : p ∈ expected_files) (hmiss : fs.fileExists p = false) :
    lookupStr (create_placeholder_files fs).1.files p = some (placeholderContent p) ∧
    firstLine (placeholderContent p) = "# " ++ specTitle p ∧
    strContains (placeholderContent p)
      ("documentation about " ++ specTitle p ++ " in the " ++ specSection p
        ++ " section") = true ∧
    strContains (placeholderContent p) "Coming Soon" = true :=
  ⟨create_placeholder_files_content fs p hp hmiss,
   (content_facts p hp).1, (content_facts p hp).2.1, (content_facts p hp).2.2⟩

/-- Witness for C2 at the empty filesystem and `docs/index.md`. -/
theorem C2_placeholder_template_witness :
    lookupStr (create_placeholder_files emptyFS).1.files "docs/index.md" =
      some (placeholderContent "docs/index.md") ∧
    firstLine (placeholderContent "docs/index.md") =
      "# " ++ specTitle "docs/index.md" ∧
    strContains (placeholderContent "docs/index.md")
      ("documentation about " ++ specTitle "docs/index.md" ++ " in the "
        ++ specSection "docs/index.md" ++ " section") = true ∧
    strContains (placeholderContent "docs/index.md") "Coming Soon" = true :=
  C2_placeholder_template emptyFS "docs/index.md" (by decide) rfl

/-- C3: if `mkdocs.yml` does not exist in the working directory, `main`
prints an error and terminates with a non-zero exit code, performing no
directory creation, no dependency install, and no placeholder writes
(the filesystem is returned unchanged and no subprocess is called). -/
theorem C3_missing_config (env : Env) (h : env.mkdocsYmlExists = false) :
    mainRun env = ⟨env.fs0, ["Setting up AgentBridge documentation...", missingCfgMsg],
      [], Outcome.exited 1⟩ := by
  unfold mainRun
  rw [h]
  rfl

/-- Witness for C3 at a concrete environment without `mkdocs.yml`. -/
theorem C3_missing_config_witness :
    mainRun ⟨false, emptyFS, 0, [], [], []⟩ =
      ⟨emptyFS, ["Setting up AgentBridge documentation...", missingCfgMsg],
        [], Outcome.exited 1⟩ :=
  C3_missing_config ⟨false, emptyFS, 0, [], [], []⟩ rfl

/-- C4: on menu choice "2", if the serve subprocess is interrupted, the
program prints a stopped message and returns to the interactive menu
(the loop continues with the remaining input) rather than terminating. -/
theorem C4_serve_interrupt (rest : List String) (builds : List Nat) (ss : List ServeOut)
    (fs : FS) (out : List String) (calls : List Call) :
    menuLoop ("2" :: rest) builds (ServeOut.interrupted :: ss) fs out calls =
      menuLoop rest builds ss fs
        (((out ++ menuText) ++ [serveMsg1, serveMsg2]) ++ [serveStoppedMsg])
        (calls ++ [Call.serve]) := rfl

/-- C5: on menu choice "1", if the build subprocess exits non-zero, the
program prints an error and terminates with exit code 1 (non-zero),
without returning to the menu: the run ends regardless of remaining
input. -/
theorem C5_build_failure (rest : List String) (bs : List Nat) (ss : List ServeOut)
    (fs : FS) (out : List String) (calls : List Call) (e : Nat) (he : e ≠ 0) :
    menuLoop ("1" :: rest) (e :: bs) ss fs out calls =
      ⟨fs, (out ++ menuText) ++ [buildErrMsg e], calls ++ [Call.build],
        Outcome.exited 1⟩ :=
  menuLoop_build_fail rest bs ss fs out calls e he

/-- Witness for C5 with build exit code 2. -/
theorem C5_build_failure_witness :
    menuLoop ["1"] [2] [] emptyFS [] [] =
      ⟨emptyFS, ([] ++ menuText) ++ [buildErrMsg 2], [] ++ [Call.build],
        Outcome.exited 1⟩ :=
  C5_build_failure [] [] [] emptyFS [] [] 2 (by decide)

/-- C6: on menu choice "3", the program prints an exit message and
terminates with exit code 0 without invoking the build or serve
subcommand. -/
theorem C6_menu_exit (env : Env) (rest : List String)
    (hcfg : env.mkdocsYmlExists = true) (hin : env.installExit = 0)
    (hinp : env.inputs = "3" :: rest) :
    (mainRun env).outcome = Outcome.exited 0 ∧
    "Exiting..." ∈ (mainRun env).out ∧
    Call.build ∉ (mainRun env).calls ∧ Call.serve ∉ (mainRun env).calls := by
  rw [mainRun_menu env hcfg hin, hinp, menuLoop_exit]
  refine ⟨rfl, List.mem_append_right _ (List.mem_singleton.mpr rfl), ?_, ?_⟩
  · show Call.build ∉ [Call.install]
    decide
  · show Call.serve ∉ [Call.install]
    decide

/-- Witness for C6 at a concrete environment typing "3". -/
theorem C6_menu_exit_witness :
    (mainRun ⟨true, emptyFS, 0, [], [], ["3"]⟩).outcome = Outcome.exited 0 ∧
    "Exiting..." ∈ (mainRun ⟨true, emptyFS, 0, [], [], ["3"]⟩).out ∧
    Call.build ∉ (mainRun ⟨true, emptyFS, 0, [], [], ["3"]⟩).calls ∧
    Call.serve ∉ (mainRun ⟨true, emptyFS, 0, [], [], ["3"]⟩).calls :=
  C6_menu_exit ⟨true, emptyFS, 0, [], [], ["3"]⟩ [] rfl rfl rfl

/-- C7: the directory scaffolder reports each creation to standard output,
and is idempotent: running it twice produces the same filesystem as
running it once, and when every directory (with all its ancestors) is
already present the run is a filesystem no-op. -/
theorem C7_scaffolder_idempotent (fs : FS) :
    (∀ d ∈ DOCS_DIRS, ("Created directory: " ++ d) ∈ (create_directories fs).2) ∧
    (create_directories (create_directories fs).1).1 = (create_directories fs).1 ∧
    ((∀ d ∈ DOCS_DIRS, ∀ q ∈ pathPrefixes d, fs.dirExists q = true) →
      (create_directories fs).1 = fs) :=
  ⟨fun d hd => create_directories_out fs d hd,
   create_directories_idem fs,
   fun h => create_directories_noop fs
     (fun d hd q hq => (dirExists_iff fs q).mp (h d hd q hq))⟩

/-- Witness for C7 at a filesystem already holding every directory. -/
theorem C7_scaffolder_idempotent_witness :
    ("Created directory: " ++ "docs/assets") ∈ (create_directories fullDirsFS).2 ∧
    (create_directories fullDirsFS).1 = fullDirsFS :=
  ⟨(C7_scaffolder_idempotent fullDirsFS).1 "docs/assets" (by decide),
   (C7_scaffolder_idempotent fullDirsFS).2.2 (by decide)⟩

/-- C8 counterexample: with the build subprocess failing with exit code 2,
the program terminates with exit code 1, not the failing subprocess's
exit code 2 — so the exit code is not propagated from the failing step. -/
theorem C8_exit_code_counterexample :
    (mainRun ⟨true, emptyFS, 0, [2], [], ["1"]⟩).outcome = Outcome.exited 1 ∧
    (mainRun ⟨true, emptyFS, 0, [2], [], ["1"]⟩).outcome ≠ Outcome.exited 2 := by
  constructor
  · rfl
  · decide

/-- C8 (amended): on a failed dependency install, failed build, or failed
serve invocation, the program terminates with exit code 1 (non-zero),
regardless of the failing subprocess's exit code. -/
theorem C8_amended_exit_codes :
    (∀ env : Env, env.mkdocsYmlExists = true → env.installExit ≠ 0 →
      (mainRun env).outcome = Outcome.exited 1) ∧
    (∀ (rest : List String) (bs : List Nat) (ss : List ServeOut) (fs : FS)
        (out : List String) (calls : List Call) (e : Nat), e ≠ 0 →
      (menuLoop ("1" :: rest) (e :: bs) ss fs out calls).outcome = Outcome.exited 1) ∧
    (∀ (rest : List String) (bs : List Nat) (ss : List ServeOut) (fs : FS)
        (out : List String) (calls : List Call) (e : Nat),
      (menuLoop ("2" :: rest) bs (ServeOut.exited (e + 1) :: ss) fs out calls).outcome =
        Outcome.exited 1) := by
  refine ⟨?_, ?_, ?_⟩
  · intro env hcfg hin
    rw [mainRun_install_fail env hcfg hin]
  · intro rest bs ss fs out calls e he
    rw [menuLoop_build_fail rest bs ss fs out calls e he]
  · intro rest bs ss fs out calls e
    rw [menuLoop_serve_fail rest bs ss fs out calls e]

/-- Witness for the amended C8: install failing with code 7, build failing
with code 3, serve failing with code 5, each ending the run with exit
code 1. -/
theorem C8_amended_exit_codes_witness :
    (mainRun ⟨true, emptyFS, 7, [], [], []⟩).outcome = Outcome.exited 1 ∧
    (menuLoop ["1"] [3] [] emptyFS [] []).outcome = Outcome.exited 1 ∧
    (menuLoop ["2"] [] [ServeOut.exited 5] emptyFS [] []).outcome = Outcome.exited 1 :=
  ⟨C8_amended_exit_codes.1 ⟨true, emptyFS, 7, [], [], []⟩ rfl (by decide),
   C8_amended_exit_codes.2.1 [] [] [] emptyFS [] [] 3 (by decide),
   C8_amended_exit_codes.2.2 [] [] [] emptyFS [] [] 4⟩

/-- C9: if the architecture-diagram image is missing, the run only prints
a console note and does not create that file, whereas every missing path
in `expected_files` is actively created. -/
theorem C9_arch_diagram_note (fs : FS)
    (h : fs.fileExists archDiagramPath = false) :
    (create_placeholder_files fs).1.fileExists archDiagramPath = false ∧
    archNote ∈ (create_placeholder_files fs).2 ∧
    (∀ p ∈ expected_files, (create_placeholder_files fs).1.fileExists p = true) :=
  ⟨create_placeholder_files_not_created fs archDiagramPath expected_ne_arch h,
   create_placeholder_files_note fs h,
   fun p hp => create_placeholder_files_exists fs p hp⟩

/-- Witness for C9 at the empty filesystem. -/
theorem C9_arch_diagram_note_witness :
    (create_placeholder_files emptyFS).1.fileExists archDiagramPath = false ∧
    archNote ∈ (create_placeholder_files emptyFS).2 ∧
    (create_placeholder_files emptyFS).1.fileExists "docs/index.md" = true :=
  ⟨(C9_arch_diagram_note emptyFS rfl).1,
   (C9_arch_diagram_note emptyFS rfl).2.1,
   (C9_arch_diagram_note emptyFS rfl).2.2 "docs/index.md" (by decide)⟩

/-- C10: after `create_directories` runs, the parent directory of every
path in `expected_files` exists, and each such parent is a member of
`DOCS_DIRS` or an ancestor of one. -/
theorem C10_parent_dirs (fs : FS) :
    (∀ p ∈ expected_files,
      (create_directories fs).1.dirExists (parentDir p) = true) ∧
    (∀ p ∈ expected_files, parentDir p ∈ DOCS_DIRS ∨
      ∃ d ∈ DOCS_DIRS, parentDir p ∈ pathPrefixes d) := by
  constructor
  · intro p hp
    obtain ⟨d, hd, hpre⟩ := expected_parent_covered p hp
    exact (dirExists_iff _ _).mpr
      (create_directories_mem_ancestor fs d (parentDir p) hd hpre)
  · intro p hp
    obtain ⟨d, hd, hpre⟩ := expected_parent_covered p hp
    exact Or.inr ⟨d, hd, hpre⟩

/-- Witness for C10 at the empty filesystem and `docs/index.md`. -/
theorem C10_parent_dirs_witness :
    (create_directories emptyFS).1.dirExists (parentDir "docs/index.md") = true ∧
    (parentDir "docs/index.md" ∈ DOCS_DIRS ∨
      ∃ d ∈ DOCS_DIRS, parentDir "docs/index.md" ∈ pathPrefixes d) :=
  ⟨(C10_parent_dirs emptyFS).1 "docs/index.md" (by decide),
   (C10_parent_dirs emptyFS).2 "docs/index.md" (by decide)⟩

end DocsSetup
